import Mathlib

/-!
# rkusa/assert: assertions with an HTTP status code

A shallow embedding of `assert.go` and `middleware.go`.

* A Go call either returns or panics; both leave a state behind. `Outcome σ`
  records which of the two happened, the state, and the panic value.
* A value of Go's `error` interface handed to `Success` or `Error` is
  `Option error`: `none` is `nil`, `some e` is a non-nil error whose `Error()`
  method returns `e.Error`.
* `statusCode` is a Go `int`; no arithmetic is done on it, so it is an `Int`.
-/

namespace Assert

/-! ## Go runtime and `net/http` pieces the package relies on -/

/-- Non-nil value of Go's `error` interface, as seen through its `Error()` method. -/
structure error where
  Error : String
deriving DecidableEq, Repr

/-- Constant `http.StatusInternalServerError`. -/
def StatusInternalServerError : Int := 500

/-- Constant `http.StatusBadRequest`. -/
def StatusBadRequest : Int := 400

/-- Constant `http.StatusNotFound`. -/
def StatusNotFound : Int := 404

/-- Table `http.StatusText` of Go's `net/http`: the reason phrase of a status
code, and the empty string for a code the table does not know. -/
def StatusText (code : Int) : String :=
  match code with
  | 100 => "Continue"
  | 101 => "Switching Protocols"
  | 102 => "Processing"
  | 103 => "Early Hints"
  | 200 => "OK"
  | 201 => "Created"
  | 202 => "Accepted"
  | 203 => "Non-Authoritative Information"
  | 204 => "No Content"
  | 205 => "Reset Content"
  | 206 => "Partial Content"
  | 207 => "Multi-Status"
  | 208 => "Already Reported"
  | 226 => "IM Used"
  | 300 => "Multiple Choices"
  | 301 => "Moved Permanently"
  | 302 => "Found"
  | 303 => "See Other"
  | 304 => "Not Modified"
  | 305 => "Use Proxy"
  | 307 => "Temporary Redirect"
  | 308 => "Permanent Redirect"
  | 400 => "Bad Request"
  | 401 => "Unauthorized"
  | 402 => "Payment Required"
  | 403 => "Forbidden"
  | 404 => "Not Found"
  | 405 => "Method Not Allowed"
  | 406 => "Not Acceptable"
  | 407 => "Proxy Authentication Required"
  | 408 => "Request Timeout"
  | 409 => "Conflict"
  | 410 => "Gone"
  | 411 => "Length Required"
  | 412 => "Precondition Failed"
  | 413 => "Request Entity Too Large"
  | 414 => "Request URI Too Long"
  | 415 => "Unsupported Media Type"
  | 416 => "Requested Range Not Satisfiable"
  | 417 => "Expectation Failed"
  | 418 => "I\x27m a teapot"
  | 421 => "Misdirected Request"
  | 422 => "Unprocessable Entity"
  | 423 => "Locked"
  | 424 => "Failed Dependency"
  | 425 => "Too Early"
  | 426 => "Upgrade Required"
  | 428 => "Precondition Required"
  | 429 => "Too Many Requests"
  | 431 => "Request Header Fields Too Large"
  | 451 => "Unavailable For Legal Reasons"
  | 500 => "Internal Server Error"
  | 501 => "Not Implemented"
  | 502 => "Bad Gateway"
  | 503 => "Service Unavailable"
  | 504 => "Gateway Timeout"
  | 505 => "HTTP Version Not Supported"
  | 506 => "Variant Also Negotiates"
  | 507 => "Insufficient Storage"
  | 508 => "Loop Detected"
  | 510 => "Not Extended"
  | 511 => "Network Authentication Required"
  | _ => ""

/-! ## `assert.go`: the failure value and the free functions -/

/-- Struct `assertError` of `assert.go`. -/
structure assertError where
  statusCode : Int
  message : String
deriving DecidableEq, Repr

/-- Method `assertError.Error`. -/
def assertError.Error (err : assertError) : String :=
  err.message

/-- Value carried by a panic, as `recover()` hands it back: either a value of
dynamic type `assertError`, or a value of any other dynamic type, named by `v`. -/
inductive Payload where
  | assertErr (e : assertError)
  | other (v : String)
deriving DecidableEq, Repr

/-- Result of running a Go call from a state of type `σ`. -/
inductive Outcome (σ : Type) where
  | returned (s : σ)
  | panicked (s : σ) (payload : Payload)
deriving DecidableEq, Repr

/-- State a call leaves behind, whichever way it ended. -/
def Outcome.state {σ : Type} : Outcome σ → σ
  | .returned s => s
  | .panicked s _ => s

/-- Panic value of a call, `none` when it returned. -/
def Outcome.payload {σ : Type} : Outcome σ → Option Payload
  | .returned _ => none
  | .panicked _ p => some p

/-- Whether the call panicked. -/
def Outcome.aborts {σ : Type} : Outcome σ → Bool
  | .returned _ => false
  | .panicked _ _ => true

/-- Function `ok` of `assert.go`. Its Go result type is `error`; the only values
it returns are `nil` and an `assertError`, hence `Option assertError`. -/
def ok (condition : Bool) (statusCode : Int) (message : String) : Option assertError :=
  if !condition then
    let message := if message.length = 0 then StatusText statusCode else message
    some { statusCode := statusCode, message := message }
  else
    none

/-- Builtin `panic(err)` applied to the `error` that `ok` returned. A nil argument
makes the runtime panic with its own error value, which is not an `assertError`. -/
def panicWith {σ : Type} (err : Option assertError) (s : σ) : Outcome σ :=
  match err with
  | some e => .panicked s (.assertErr e)
  | none => .panicked s (.other "panic called with nil argument")

/-- Function `OK` of `assert.go`. -/
def OK {σ : Type} (condition : Bool) (statusCode : Int) (message : String) (s : σ) :
    Outcome σ :=
  match ok condition statusCode message with
  | some err => panicWith (some err) s
  | none => .returned s

/-- Function `Success` of `assert.go`. -/
def Success {σ : Type} (err : Option error) (statusCode : Int) (message : String) (s : σ) :
    Outcome σ :=
  match ok (err == none) statusCode message with
  | some e => panicWith (some e) s
  | none => .returned s

/-- Function `Error` of `assert.go`. -/
def Error {σ : Type} (err : Option error) (s : σ) : Outcome σ :=
  match err with
  | some e => panicWith (ok false StatusInternalServerError e.Error) s
  | none => .returned s

/-- Modelled from the spec: the function `Throw`, which `assert_test.go` calls and
`assert.go` does not define. By section 4.2 of the spec it constructs the failure
for the given status and message and aborts with it, whatever the state. -/
def Throw {σ : Type} (statusCode : Int) (message : String) (s : σ) : Outcome σ :=
  panicWith (ok false statusCode message) s

/-! ## `assert.go`: the assertion scope -/

/-- Struct `assertEncapsulation` of `assert.go`. The field `onError` is a Go
`func()`: `none` is the nil func, `some fn` a callback that acts on the caller's
state and may itself panic. -/
structure assertEncapsulation (σ : Type) where
  onError : Option (σ → Outcome σ)

/-- Method `assertEncapsulation.throw`. When the hook panics, the statement
`panic(err)` after it is never reached. -/
def assertEncapsulation.throw {σ : Type} (a : assertEncapsulation σ)
    (err : Option assertError) (s : σ) : Outcome σ :=
  match a.onError with
  | some fn =>
    match fn s with
    | .returned s1 => panicWith err s1
    | .panicked s1 p => .panicked s1 p
  | none => panicWith err s

/-- Method `assertEncapsulation.OnError`. -/
def assertEncapsulation.OnError {σ : Type} (_a : assertEncapsulation σ)
    (fn : Option (σ → Outcome σ)) : assertEncapsulation σ :=
  { onError := fn }

/-- Method `assertEncapsulation.OK`. -/
def assertEncapsulation.OK {σ : Type} (a : assertEncapsulation σ) (condition : Bool)
    (statusCode : Int) (message : String) (s : σ) : Outcome σ :=
  match ok condition statusCode message with
  | some err => a.throw (some err) s
  | none => .returned s

/-- Method `assertEncapsulation.Success`. -/
def assertEncapsulation.Success {σ : Type} (a : assertEncapsulation σ) (err : Option error)
    (statusCode : Int) (message : String) (s : σ) : Outcome σ :=
  match ok (err == none) statusCode message with
  | some e => a.throw (some e) s
  | none => .returned s

/-- Method `assertEncapsulation.Error`. -/
def assertEncapsulation.Error {σ : Type} (a : assertEncapsulation σ) (err : Option error)
    (s : σ) : Outcome σ :=
  match err with
  | some e => a.throw (ok false StatusInternalServerError e.Error) s
  | none => .returned s

/-- Function `New` of `assert.go`. -/
def New {σ : Type} : assertEncapsulation σ :=
  { onError := none }

/-- State of a caller that holds the pointer `a` returned by `New()`: the struct
behind the pointer and the caller's own state, on which a hook acts. -/
structure ScopeState (σ : Type) where
  a : assertEncapsulation σ
  world : σ

/-- Call of a method of `a` whose body assigns to no field of the struct: it runs
on the caller's state and the struct stays as it is. -/
def ScopeState.run {σ : Type} (f : assertEncapsulation σ → σ → Outcome σ)
    (st : ScopeState σ) : Outcome (ScopeState σ) :=
  match f st.a st.world with
  | .returned w => .returned { st with world := w }
  | .panicked w p => .panicked { st with world := w } p

/-- Call `a.OnError(fn)`: the assignment `a.onError = fn`, then return. -/
def ScopeState.OnError {σ : Type} (fn : Option (σ → Outcome σ)) (st : ScopeState σ) :
    Outcome (ScopeState σ) :=
  .returned { st with a := st.a.OnError fn }

/-- Call `a.OK(condition, statusCode, message)`. -/
def ScopeState.OK {σ : Type} (condition : Bool) (statusCode : Int) (message : String)
    (st : ScopeState σ) : Outcome (ScopeState σ) :=
  st.run (fun a => a.OK condition statusCode message)

/-- Call `a.Success(err, statusCode, message)`. -/
def ScopeState.Success {σ : Type} (err : Option error) (statusCode : Int) (message : String)
    (st : ScopeState σ) : Outcome (ScopeState σ) :=
  st.run (fun a => a.Success err statusCode message)

/-- Call `a.Error(err)`. -/
def ScopeState.Error {σ : Type} (err : Option error) (st : ScopeState σ) :
    Outcome (ScopeState σ) :=
  st.run (fun a => a.Error err)

/-- Statement `a := New()` in a caller whose state is `world`. -/
def ScopeState.New {σ : Type} (world : σ) : ScopeState σ :=
  { a := Assert.New, world := world }

/-! ## `assert.go`: capturing the stack trace -/

/-- Zero byte, the content of a freshly made byte slice. -/
def NUL : Char := Char.ofNat 0

/-- Builtin `make([]byte, n)`. -/
def make (n : Nat) : List Char :=
  List.replicate n NUL

/-- Call `runtime.Stack(buf, false)` when the goroutine's formatted trace is
`trace`: it fills the front of `buf` with as much of the trace as fits and
returns the filled buffer and the number of bytes written. -/
def runtimeStack (trace buf : List Char) : List Char × Nat :=
  let n := min trace.length buf.length
  (trace.take n ++ buf.drop n, n)

/-- Loop of `assertError.stack`, entered with the current buffer `buf`: it reads
the trace into `buf` and leaves when fewer bytes than `len(buf)` were written,
otherwise it starts over with a fresh buffer twice as long. -/
def stackLoop (trace buf : List Char) (hb : 0 < buf.length) : List Char :=
  if (runtimeStack trace buf).2 < buf.length then
    (runtimeStack trace buf).1
  else
    stackLoop trace (make (buf.length * 2)) (by simp only [make, List.length_replicate]; omega)
termination_by trace.length + 1 - buf.length
decreasing_by
  all_goals simp_wf
  all_goals simp only [runtimeStack, make, List.length_replicate] at *
  all_goals omega

/-- Function `strings.Split(s, sep)` for a one-byte separator. -/
def Split : List Char → Char → List (List Char)
  | [], _ => [[]]
  | c :: cs, sep =>
    if c = sep then [] :: Split cs sep
    else
      match Split cs sep with
      | [] => [[c]]
      | l :: ls => (c :: l) :: ls

/-- Function `strings.Join(elems, sep)` for a one-byte separator. -/
def Join : List (List Char) → Char → List Char
  | [], _ => []
  | [a], _ => a
  | a :: b :: rest, sep => a ++ sep :: Join (b :: rest) sep

/-- Method `assertError.stack`, run while the goroutine's formatted trace is `trace`. -/
def assertError.stack (_err : assertError) (trace : List Char) : String :=
  let buf := stackLoop trace (make 32) (by simp [make])
  let stack := String.mk buf
  let lines := Split stack.data '\n'
  String.mk (Join lines '\n')

/-! ## `middleware.go` -/

/-- Logger of Go's `log` package built by `log.New(out, tag, 0)`: with flag `0`
the header of an entry is the tag alone. -/
structure Logger where
  tag : String
deriving DecidableEq, Repr

/-- Method `Logger.Output`: one write of the tag, the text, and a newline unless
the text already ends in one. `out` lists the writes the destination received. -/
def Logger.Output (l : Logger) (s : String) (out : List String) : List String :=
  out ++ [l.tag ++ s ++ (if s.data.getLast? = some '\n' then "" else "\n")]

/-- Text `fmt.Sprintf("PANIC: %s\n%s", message, stack)`. -/
def sprintfPANIC (message stack : String) : String :=
  "PANIC: " ++ message ++ "\n" ++ stack

/-- Method call an `http.ResponseWriter` receives. -/
inductive RwCall where
  | HeaderDel (key : String)
  | HeaderSet (key value : String)
  | WriteHeader (statusCode : Int)
  | Write (data : String)
deriving DecidableEq, Repr

/-- Interface value `http.ResponseWriter` backed by a recording writer
(`httptest.ResponseRecorder`, the writer of `TestMiddleware`), observed through the
calls made on it that returned, oldest first. -/
structure ResponseWriter where
  calls : List RwCall
deriving DecidableEq, Repr

/-- One more call on the writer. -/
def ResponseWriter.call (w : ResponseWriter) (c : RwCall) : ResponseWriter :=
  { calls := w.calls ++ [c] }

/-- Whether a recording writer has sent its status line after the calls: true
from the first `WriteHeader` or `Write` on. -/
def wroteHeader : List RwCall → Bool
  | [] => false
  | .WriteHeader _ :: _ => true
  | .Write _ :: _ => true
  | _ :: rest => wroteHeader rest

/-- Method `WriteHeader(code)` of the recording writer. Once the status line has
been sent the call is ignored and returns. Otherwise `checkWriteHeaderCode` makes
it panic, with a string, for a code below 100 or above 999, and any other code is
sent. The response of the `net/http` server checks the code in the same way. -/
def ResponseWriter.WriteHeader (w : ResponseWriter) (code : Int) : Outcome ResponseWriter :=
  if wroteHeader w.calls then
    .returned (w.call (.WriteHeader code))
  else if code < 100 ∨ code > 999 then
    .panicked w (.other ("invalid WriteHeader code " ++ toString code))
  else
    .returned (w.call (.WriteHeader code))

/-- Function `http.Error(w, error, code)` of `net/http`: it resets the headers to
a plain-text reply, calls `w.WriteHeader(code)` and, when that returns, prints
`error` with `Fprintln`. -/
def httpError (w : ResponseWriter) (error : String) (code : Int) : Outcome ResponseWriter :=
  let w1 := ((w.call (.HeaderDel "Content-Length")).call
    (.HeaderSet "Content-Type" "text/plain; charset=utf-8")).call
    (.HeaderSet "X-Content-Type-Options" "nosniff")
  match w1.WriteHeader code with
  | .returned w2 => .returned (w2.call (.Write (error ++ "\n")))
  | .panicked w2 p => .panicked w2 p

/-- Status a recording writer (`httptest.ResponseRecorder`) reports after the
calls: that of the first `WriteHeader`, or 200 when a `Write` came first or
nothing was written. -/
def recorderCode : List RwCall → Int
  | [] => 200
  | .WriteHeader c :: _ => c
  | .Write _ :: _ => 200
  | _ :: rest => recorderCode rest

/-- Body a recording writer holds after the calls: all written data in order. -/
def recorderBody : List RwCall → String
  | [] => ""
  | .Write d :: rest => d ++ recorderBody rest
  | _ :: rest => recorderBody rest

/-- Number of `WriteHeader` calls among the calls: how many status lines the
writer was asked to send. -/
def writeHeaderCalls : List RwCall → Nat
  | [] => 0
  | .WriteHeader _ :: rest => writeHeaderCalls rest + 1
  | _ :: rest => writeHeaderCalls rest

/-- Number of `Write` calls among the calls. -/
def writeCalls : List RwCall → Nat
  | [] => 0
  | .Write _ :: rest => writeCalls rest + 1
  | _ :: rest => writeCalls rest

/-- Request `*http.Request`; the middleware only passes it on. -/
structure Request where
  method : String
  url : String
deriving DecidableEq, Repr

/-- Everything a handler can change that the middleware also touches: the
response writer behind `rw` and what was written to `os.Stdout`. -/
structure World where
  rw : ResponseWriter
  stdout : List String
deriving DecidableEq, Repr

/-- Type `http.HandlerFunc`, called as `next(rw, r)`; the writer is in the state. -/
abbrev HandlerFunc := Option Request → World → Outcome World

/-- Deferred function of the handler that `Middleware` returns. `recovered` is the
result of `recover()`: `none` when the handler returned, the panic value
otherwise. `trace` is what `runtime.Stack` formats at that moment. Nothing
recovers a panic of `http.Error`, so it leaves the deferred function. -/
def Middleware.deferred (l : Logger) (trace : List Char) (recovered : Option Payload)
    (w : World) : Outcome World :=
  match recovered with
  | none => .returned w
  | some (.assertErr assert) =>
    let w1 : World :=
      if assert.statusCode = StatusInternalServerError then
        { w with stdout := l.Output (sprintfPANIC assert.Error (assert.stack trace)) w.stdout }
      else w
    match httpError w1.rw assert.Error assert.statusCode with
    | .returned rw1 => .returned { w1 with rw := rw1 }
    | .panicked rw1 p => .panicked { w1 with rw := rw1 } p
  | some err => .panicked w err

/-- Function `Middleware` of `middleware.go`, applied to `(rw, r, next)`. -/
def Middleware (trace : List Char) (r : Option Request) (next : HandlerFunc) (w : World) :
    Outcome World :=
  let l : Logger := { tag := "[web] " }
  match next r w with
  | .returned w1 => Middleware.deferred l trace none w1
  | .panicked w1 err => Middleware.deferred l trace (some err) w1

/-! ## Facts about `ok` shared by the results below -/

theorem length_eq_zero_iff (m : String) : m.length = 0 ↔ m = "" := by
  constructor
  · intro h
    have hd : m.data = [] := List.length_eq_zero.mp h
    cases m
    simp_all
  · rintro rfl
    rfl

theorem ok_true (statusCode : Int) (message : String) : ok true statusCode message = none := by
  simp [ok]

theorem ok_false (statusCode : Int) (message : String) :
    ok false statusCode message =
      some { statusCode := statusCode,
             message := if message = "" then StatusText statusCode else message } := by
  simp [ok, length_eq_zero_iff]

theorem ok_false_empty (statusCode : Int) :
    ok false statusCode "" = some { statusCode := statusCode, message := StatusText statusCode } := by
  simp [ok_false]

theorem ok_false_nonempty (statusCode : Int) (message : String) (h : message ≠ "") :
    ok false statusCode message = some { statusCode := statusCode, message := message } := by
  simp [ok_false, h]

theorem StatusText_400 : StatusText 400 = "Bad Request" := rfl

theorem StatusText_404 : StatusText 404 = "Not Found" := rfl

theorem StatusText_500 : StatusText 500 = "Internal Server Error" := rfl

theorem StatusText_0 : StatusText 0 = "" := rfl

/-! ## The free functions -/

/-- C1: `OK` panics exactly when `condition` is false; with a true condition it
returns for every status code and message, and with a false one the panic value
is an `assertError` whose `statusCode` is the argument. -/
theorem C1_OK_panics_iff_condition_false {σ : Type} (condition : Bool) (statusCode : Int)
    (message : String) (s : σ) :
    ((OK condition statusCode message s).aborts = true ↔ condition = false) ∧
    OK true statusCode message s = Outcome.returned s ∧
    ∃ e : assertError,
      OK false statusCode message s = Outcome.panicked s (Payload.assertErr e) ∧
      e.statusCode = statusCode := by
  refine ⟨?_, ?_, ?_⟩
  · cases condition <;> simp [OK, ok_true, ok_false, panicWith, Outcome.aborts]
  · simp [OK, ok_true]
  · exact ⟨{ statusCode := statusCode,
             message := if message = "" then StatusText statusCode else message },
      by simp [OK, ok_false, panicWith], rfl⟩

/-- C2: with an empty message, the failure raised by `OK(false, statusCode, "")` and
by `Success(err, statusCode, "")` for a non-nil `err` carries the message
`http.StatusText(statusCode)`; for 404 that is "Not Found", for 400 "Bad Request". -/
theorem C2_empty_message_is_status_text {σ : Type} (statusCode : Int) (err : error) (s : σ) :
    OK false statusCode "" s =
      Outcome.panicked s
        (Payload.assertErr { statusCode := statusCode, message := StatusText statusCode }) ∧
    Success (some err) statusCode "" s =
      Outcome.panicked s
        (Payload.assertErr { statusCode := statusCode, message := StatusText statusCode }) ∧
    OK false StatusNotFound "" s =
      Outcome.panicked s (Payload.assertErr { statusCode := 404, message := "Not Found" }) ∧
    OK false StatusBadRequest "" s =
      Outcome.panicked s (Payload.assertErr { statusCode := 400, message := "Bad Request" }) := by
  refine ⟨?_, ?_, ?_, ?_⟩
  · simp [OK, ok_false_empty, panicWith]
  · simp [Success, ok_false_empty, panicWith]
  · simp [OK, ok_false_empty, panicWith, StatusNotFound, StatusText_404]
  · simp [OK, ok_false_empty, panicWith, StatusBadRequest, StatusText_400]

/-- C3: with a non-empty message `m`, the failure raised by `OK(false, statusCode, m)`
and by `Success(err, statusCode, m)` for a non-nil `err` carries exactly `m`, and
its `Error()` text is `m`. -/
theorem C3_nonempty_message_kept {σ : Type} (statusCode : Int) (m : String) (err : error)
    (s : σ) (hm : m ≠ "") :
    ∃ e : assertError,
      OK false statusCode m s = Outcome.panicked s (Payload.assertErr e) ∧
      Success (some err) statusCode m s = Outcome.panicked s (Payload.assertErr e) ∧
      e.statusCode = statusCode ∧ e.message = m ∧ e.Error = m := by
  refine ⟨{ statusCode := statusCode, message := m }, ?_, ?_, rfl, rfl, rfl⟩
  · simp [OK, ok_false_nonempty _ _ hm, panicWith]
  · simp [Success, ok_false_nonempty _ _ hm, panicWith]

/-- Witness of C3 at status 400 and message "Invalid input", the case of `TestOK`. -/
theorem C3_nonempty_message_kept_witness :
    "Invalid input" ≠ "" ∧
    ∃ e : assertError,
      OK false 400 "Invalid input" () = Outcome.panicked () (Payload.assertErr e) ∧
      Success (some { Error := "Fail" }) 400 "Invalid input" () =
        Outcome.panicked () (Payload.assertErr e) ∧
      e.statusCode = 400 ∧ e.message = "Invalid input" ∧ e.Error = "Invalid input" :=
  ⟨by decide, C3_nonempty_message_kept 400 "Invalid input" { Error := "Fail" } () (by decide)⟩

/-- C4, as stated, fails for an error whose text is empty: `Error` then raises the
message "Internal Server Error", not the empty text of the error. -/
theorem C4_counterexample_empty_text :
    Error (some { Error := "" }) () =
      Outcome.panicked ()
        (Payload.assertErr { statusCode := 500, message := "Internal Server Error" }) ∧
    Error (some { Error := "" }) () ≠
      Outcome.panicked ()
        (Payload.assertErr { statusCode := 500, message := (error.mk "").Error }) := by
  constructor
  · simp [Error, ok_false, panicWith, StatusInternalServerError, StatusText_500]
  · simp [Error, ok_false, panicWith, StatusInternalServerError, StatusText_500]

/-- C4 (amended): `Error(nil)` returns; for a non-nil `err`, `Error(err)` panics with
an `assertError` of status 500 whose message is `err.Error()` when that text is
non-empty, and "Internal Server Error" when it is empty. -/
theorem C4_Error_raises_500 {σ : Type} (err : error) (s : σ) :
    Error none s = Outcome.returned s ∧
    Error (some err) s =
      Outcome.panicked s
        (Payload.assertErr
          { statusCode := 500,
            message := if err.Error = "" then "Internal Server Error" else err.Error }) := by
  constructor
  · rfl
  · simp [Error, ok_false, panicWith, StatusInternalServerError, StatusText_500]

/-- C5, as stated, fails for a status code unknown to `http.StatusText`: the
failure that `ok(false, 0, "")` returns has the empty message. -/
theorem C5_counterexample_unknown_code :
    ok false 0 "" = some { statusCode := 0, message := "" } ∧
    (∃ e : assertError, ok false 0 "" = some e ∧ e.message = "") := by
  refine ⟨?_, ⟨{ statusCode := 0, message := "" }, ?_, rfl⟩⟩ <;>
    simp [ok_false, StatusText_0]

/-- C5 (amended): `ok(false, statusCode, message)` always returns a failure, and
its message is empty exactly when `message` is empty and `http.StatusText` has no
phrase for `statusCode`; a non-empty message or a recognised code gives a
non-empty message. -/
theorem C5_message_empty_iff (statusCode : Int) (message : String) :
    ∃ e : assertError,
      ok false statusCode message = some e ∧
      (e.message = "" ↔ (message = "" ∧ StatusText statusCode = "")) := by
  refine ⟨_, ok_false statusCode message, ?_⟩
  by_cases h : message = ""
  · simp [h]
  · simp [h]

/-- C6: `Success(err, statusCode, message)` is `OK(err == nil, statusCode, message)`:
it panics exactly when `err` is non-nil, and the failure does not depend on which
non-nil error was given. -/
theorem C6_Success_is_OK_of_nil_test {σ : Type} (err : Option error) (statusCode : Int)
    (message : String) (s : σ) :
    Success err statusCode message s = OK (err == none) statusCode message s ∧
    ((Success err statusCode message s).aborts = true ↔ err ≠ none) ∧
    (∀ e : error, Success (some e) statusCode message s = OK false statusCode message s) ∧
    Success none statusCode message s = OK true statusCode message s := by
  refine ⟨rfl, ?_, ?_, ?_⟩
  · cases err <;> simp [Success, ok_true, ok_false, panicWith, Outcome.aborts]
  · intro e
    simp [Success, OK]
  · simp [Success, OK]

/-! ## The captured stack trace -/

theorem Split_ne_nil (s : List Char) (sep : Char) : Split s sep ≠ [] := by
  cases s with
  | nil => simp [Split]
  | cons c cs =>
    unfold Split
    split
    · simp
    · split <;> simp

theorem Join_Split (s : List Char) (sep : Char) : Join (Split s sep) sep = s := by
  induction s with
  | nil => simp [Split, Join]
  | cons c cs ih =>
    unfold Split
    rcases hsplit : Split cs sep with _ | ⟨l, ls⟩
    · exact absurd hsplit (Split_ne_nil cs sep)
    · rw [hsplit] at ih
      by_cases hc : c = sep
      · simp only [hc, if_true, Join, List.nil_append, ih]
      · simp only [hc, if_false]
        cases ls with
        | nil =>
          simp only [Join] at ih ⊢
          rw [ih]
        | cons b rest =>
          simp only [Join] at ih ⊢
          rw [← ih]
          simp

theorem make_length (n : Nat) : (make n).length = n := by
  simp [make]

theorem stackLoop_spec (trace : List Char) :
    ∀ (k : Nat) (buf : List Char) (hb : 0 < buf.length),
      buf = make buf.length → trace.length + 1 - buf.length ≤ k →
      ∃ n, trace.length < n ∧ stackLoop trace buf hb = trace ++ make (n - trace.length) := by
  intro k
  induction k with
  | zero =>
    intro buf hb hbuf hk
    have hlt : trace.length < buf.length := by omega
    refine ⟨buf.length, hlt, ?_⟩
    rw [stackLoop]
    have hmin : min trace.length buf.length = trace.length := by omega
    simp only [runtimeStack, hmin, hlt, if_true, List.take_length]
    rw [hbuf]
    simp [make, List.drop_replicate]
  | succ k ih =>
    intro buf hb hbuf hk
    by_cases hlt : trace.length < buf.length
    · refine ⟨buf.length, hlt, ?_⟩
      rw [stackLoop]
      have hmin : min trace.length buf.length = trace.length := by omega
      simp only [runtimeStack, hmin, hlt, if_true, List.take_length]
      rw [hbuf]
      simp [make, List.drop_replicate]
    · rw [stackLoop]
      have hmin : min trace.length buf.length = buf.length := by omega
      simp only [runtimeStack, hmin, Nat.lt_irrefl, if_false]
      apply ih
      · simp [make]
      · simp only [make_length]
        omega

/-- Buffer that `assertError.stack` ends with: the whole trace, then at least one
zero byte. -/
theorem stack_eq (err : assertError) (trace : List Char) :
    ∃ n, trace.length < n ∧ err.stack trace = String.mk (trace ++ make (n - trace.length)) := by
  obtain ⟨n, hn, h⟩ := stackLoop_spec trace (trace.length + 1) (make 32) (by simp [make])
    (by simp [make]) (by omega)
  exact ⟨n, hn, by simp [assertError.stack, Join_Split, h]⟩

theorem stack_getLast (err : assertError) (trace : List Char) :
    (err.stack trace).data.getLast? = some NUL := by
  obtain ⟨n, hn, h⟩ := stack_eq err trace
  obtain ⟨j, hj⟩ : ∃ j, n - trace.length = j + 1 := ⟨n - trace.length - 1, by omega⟩
  rw [h, hj]
  simp [make, List.replicate_succ', ← List.append_assoc]

theorem sprintfPANIC_getLast (message : String) (err : assertError) (trace : List Char) :
    (sprintfPANIC message (err.stack trace)).data.getLast? ≠ some '\n' := by
  have h := stack_getLast err trace
  have hne : (err.stack trace).data ≠ [] := by
    intro h0
    rw [h0] at h
    simp at h
  simp only [sprintfPANIC, String.data_append]
  rw [List.getLast?_append_of_ne_nil _ hne, h]
  decide

/-! ## The middleware -/

theorem recorderBody_append (xs ys : List RwCall) :
    recorderBody (xs ++ ys) = recorderBody xs ++ recorderBody ys := by
  induction xs with
  | nil => simp [recorderBody]
  | cons c cs ih => cases c <;> simp [recorderBody, ih, String.append_assoc]

theorem recorderCode_append (xs ys : List RwCall) :
    recorderCode (xs ++ ys) = if wroteHeader xs then recorderCode xs else recorderCode ys := by
  induction xs with
  | nil => simp [wroteHeader]
  | cons c cs ih => cases c <;> simp [recorderCode, wroteHeader, ih]

theorem wroteHeader_append (xs ys : List RwCall) :
    wroteHeader (xs ++ ys) = (wroteHeader xs || wroteHeader ys) := by
  induction xs with
  | nil => simp [wroteHeader]
  | cons c cs ih => cases c <;> simp [wroteHeader, ih]

theorem httpError_accepted (w : ResponseWriter) (error : String) (code : Int)
    (hcode : 100 ≤ code ∧ code ≤ 999) :
    httpError w error code =
      Outcome.returned
        { calls := w.calls ++
            [RwCall.HeaderDel "Content-Length",
             RwCall.HeaderSet "Content-Type" "text/plain; charset=utf-8",
             RwCall.HeaderSet "X-Content-Type-Options" "nosniff",
             RwCall.WriteHeader code,
             RwCall.Write (error ++ "\n")] } := by
  have hnot : ¬ (code < 100 ∨ code > 999) := by omega
  simp [httpError, ResponseWriter.WriteHeader, ResponseWriter.call, hnot]

theorem httpError_rejected (w : ResponseWriter) (error : String) (code : Int)
    (hw : wroteHeader w.calls = false) (hcode : code < 100 ∨ 999 < code) :
    httpError w error code =
      Outcome.panicked
        { calls := w.calls ++
            [RwCall.HeaderDel "Content-Length",
             RwCall.HeaderSet "Content-Type" "text/plain; charset=utf-8",
             RwCall.HeaderSet "X-Content-Type-Options" "nosniff"] }
        (Payload.other ("invalid WriteHeader code " ++ toString code)) := by
  have hbad : code < 100 ∨ code > 999 := by omega
  simp [httpError, ResponseWriter.WriteHeader, ResponseWriter.call, wroteHeader_append, hw,
    wroteHeader, hbad]

theorem httpError_payload (w : ResponseWriter) (error : String) (code : Int)
    (e : assertError) : (httpError w error code).payload ≠ some (Payload.assertErr e) := by
  simp only [httpError, ResponseWriter.WriteHeader]
  split <;> rename_i heq
  · simp [Outcome.payload]
  · split at heq
    · simp at heq
    · split at heq
      · simp only [Outcome.panicked.injEq] at heq
        simp [Outcome.payload, ← heq.2]
      · simp at heq

/-- Outcome of the middleware once the handler panicked with the failure `F`: that
of `http.Error`, with the log entry written before it when the status is 500. -/
theorem Middleware_of_assertError (trace : List Char) (r : Option Request) (next : HandlerFunc)
    (w w1 : World) (F : assertError)
    (h : next r w = Outcome.panicked w1 (Payload.assertErr F)) :
    Middleware trace r next w =
      (match httpError w1.rw F.message F.statusCode with
        | Outcome.returned rw1 =>
          Outcome.returned
            { rw := rw1,
              stdout :=
                if F.statusCode = 500 then
                  w1.stdout ++
                    ["[web] " ++ ("PANIC: " ++ F.message ++ "\n" ++ F.stack trace) ++ "\n"]
                else w1.stdout }
        | Outcome.panicked rw1 p =>
          Outcome.panicked
            { rw := rw1,
              stdout :=
                if F.statusCode = 500 then
                  w1.stdout ++
                    ["[web] " ++ ("PANIC: " ++ F.message ++ "\n" ++ F.stack trace) ++ "\n"]
                else w1.stdout } p) := by
  have hlast := sprintfPANIC_getLast F.message F trace
  by_cases h500 : F.statusCode = 500
  · simp only [Middleware, h, Middleware.deferred, StatusInternalServerError, h500, if_true,
      Logger.Output, assertError.Error, hlast, if_false]
    cases httpError w1.rw F.message 500 <;> rfl
  · simp only [Middleware, h, Middleware.deferred, StatusInternalServerError, h500, if_false,
      assertError.Error]

theorem Middleware_accepted (trace : List Char) (r : Option Request) (next : HandlerFunc)
    (w w1 : World) (F : assertError)
    (h : next r w = Outcome.panicked w1 (Payload.assertErr F))
    (hcode : 100 ≤ F.statusCode ∧ F.statusCode ≤ 999) :
    Middleware trace r next w =
      Outcome.returned
        { rw := { calls := w1.rw.calls ++
            [RwCall.HeaderDel "Content-Length",
             RwCall.HeaderSet "Content-Type" "text/plain; charset=utf-8",
             RwCall.HeaderSet "X-Content-Type-Options" "nosniff",
             RwCall.WriteHeader F.statusCode,
             RwCall.Write (F.message ++ "\n")] },
          stdout :=
            if F.statusCode = 500 then
              w1.stdout ++
                ["[web] " ++ ("PANIC: " ++ F.message ++ "\n" ++ F.stack trace) ++ "\n"]
            else w1.stdout } := by
  rw [Middleware_of_assertError trace r next w w1 F h,
    httpError_accepted w1.rw F.message F.statusCode hcode]

theorem Middleware_rejected (trace : List Char) (r : Option Request) (next : HandlerFunc)
    (w w1 : World) (F : assertError)
    (h : next r w = Outcome.panicked w1 (Payload.assertErr F))
    (hw : wroteHeader w1.rw.calls = false) (hcode : F.statusCode < 100 ∨ 999 < F.statusCode) :
    Middleware trace r next w =
      Outcome.panicked
        { rw := { calls := w1.rw.calls ++
            [RwCall.HeaderDel "Content-Length",
             RwCall.HeaderSet "Content-Type" "text/plain; charset=utf-8",
             RwCall.HeaderSet "X-Content-Type-Options" "nosniff"] },
          stdout := w1.stdout }
        (Payload.other ("invalid WriteHeader code " ++ toString F.statusCode)) := by
  have h500 : ¬ F.statusCode = 500 := by omega
  rw [Middleware_of_assertError trace r next w w1 F h,
    httpError_rejected w1.rw F.message F.statusCode hw hcode]
  simp [h500]

/-- C7, as stated, fails in two ways. For a status code that the response writer
rejects: behind the middleware, `OK(false, 1000, "high")` on a fresh recorder makes
`WriteHeader(1000)` panic inside `http.Error`, so the middleware panics with that
value and no body is written. And for a handler that has already sent a status
line: after `WriteHeader(201)` a failing `OK(false, 404, "")` leaves a recording
writer with the status 201, not 404. -/
theorem C7_counterexample_rejected_code_or_sent_status :
    (Middleware [] none (fun _ w => OK false 1000 "high" w)
        { rw := { calls := [] }, stdout := [] } =
      Outcome.panicked
        { rw := { calls :=
            [RwCall.HeaderDel "Content-Length",
             RwCall.HeaderSet "Content-Type" "text/plain; charset=utf-8",
             RwCall.HeaderSet "X-Content-Type-Options" "nosniff"] },
          stdout := [] }
        (Payload.other "invalid WriteHeader code 1000") ∧
      (Middleware [] none (fun _ w => OK false 1000 "high" w)
        { rw := { calls := [] }, stdout := [] }).aborts = true ∧
      recorderBody (Middleware [] none (fun _ w => OK false 1000 "high" w)
        { rw := { calls := [] }, stdout := [] }).state.rw.calls = "") ∧
    ((Middleware [] none
        (fun _ w => OK false 404 "" { w with rw := w.rw.call (RwCall.WriteHeader 201) })
        { rw := { calls := [] }, stdout := [] }).aborts = false ∧
      recorderCode (Middleware [] none
        (fun _ w => OK false 404 "" { w with rw := w.rw.call (RwCall.WriteHeader 201) })
        { rw := { calls := [] }, stdout := [] }).state.rw.calls = 201) := by
  have hm := Middleware_rejected [] none (fun _ w => OK false 1000 "high" w)
    { rw := { calls := [] }, stdout := [] } { rw := { calls := [] }, stdout := [] }
    { statusCode := 1000, message := "high" } (by decide) rfl (by decide)
  have hs := Middleware_accepted [] none
    (fun _ w => OK false 404 "" { w with rw := w.rw.call (RwCall.WriteHeader 201) })
    { rw := { calls := [] }, stdout := [] }
    { rw := { calls := [RwCall.WriteHeader 201] }, stdout := [] }
    { statusCode := 404, message := "Not Found" }
    (by simp [OK, ok_false, panicWith, StatusText_404, ResponseWriter.call]) (by decide)
  rw [hm, hs]
  refine ⟨⟨?_, rfl, ?_⟩, ⟨rfl, ?_⟩⟩
  · simp
    decide
  · simp [Outcome.state, recorderBody]
  · simp [Outcome.state, recorderCode]

/-- C7 (amended): when the downstream handler panics with an `assertError` `F`
whose status code lies between 100 and 999, the middleware returns normally and
makes on the response writer exactly the calls of
`http.Error(rw, F.message, F.statusCode)`: the status `F.statusCode` and the body
`F.message` followed by one newline. A recording writer then holds that body after
whatever the handler wrote, and reports status `F.statusCode` unless the handler
had already sent a status line. -/
theorem C7_failure_becomes_plain_error_response (trace : List Char) (r : Option Request)
    (next : HandlerFunc) (w w1 : World) (F : assertError)
    (h : next r w = Outcome.panicked w1 (Payload.assertErr F))
    (hcode : 100 ≤ F.statusCode ∧ F.statusCode ≤ 999) :
    (Middleware trace r next w).aborts = false ∧
    (Middleware trace r next w).state.rw.calls =
      w1.rw.calls ++
        [RwCall.HeaderDel "Content-Length",
         RwCall.HeaderSet "Content-Type" "text/plain; charset=utf-8",
         RwCall.HeaderSet "X-Content-Type-Options" "nosniff",
         RwCall.WriteHeader F.statusCode,
         RwCall.Write (F.message ++ "\n")] ∧
    recorderBody (Middleware trace r next w).state.rw.calls =
      recorderBody w1.rw.calls ++ (F.message ++ "\n") ∧
    recorderCode (Middleware trace r next w).state.rw.calls =
      (if wroteHeader w1.rw.calls then recorderCode w1.rw.calls else F.statusCode) := by
  rw [Middleware_accepted trace r next w w1 F h hcode]
  refine ⟨rfl, rfl, ?_, ?_⟩
  · simp only [Outcome.state, recorderBody_append]
    simp [recorderBody]
  · simp only [Outcome.state, recorderCode_append]
    simp [recorderCode]

/-- Witness of C7 (amended) on a fresh recorder, the case of `TestMiddleware`:
behind the middleware, `Error` of an error with text "Fail" gives status 500 and
body "Fail\n", and `OK(false, 400, "Invalid input")` gives status 400 and body
"Invalid input\n". -/
theorem C7_failure_becomes_plain_error_response_witness :
    ((Middleware [] none (fun _ w => Error (some { Error := "Fail" }) w)
        { rw := { calls := [] }, stdout := [] }).aborts = false ∧
      recorderCode (Middleware [] none (fun _ w => Error (some { Error := "Fail" }) w)
        { rw := { calls := [] }, stdout := [] }).state.rw.calls = 500 ∧
      recorderBody (Middleware [] none (fun _ w => Error (some { Error := "Fail" }) w)
        { rw := { calls := [] }, stdout := [] }).state.rw.calls = "Fail\n") ∧
    ((Middleware [] none (fun _ w => OK false 400 "Invalid input" w)
        { rw := { calls := [] }, stdout := [] }).aborts = false ∧
      recorderCode (Middleware [] none (fun _ w => OK false 400 "Invalid input" w)
        { rw := { calls := [] }, stdout := [] }).state.rw.calls = 400 ∧
      recorderBody (Middleware [] none (fun _ w => OK false 400 "Invalid input" w)
        { rw := { calls := [] }, stdout := [] }).state.rw.calls = "Invalid input\n") := by
  have h1 := C7_failure_becomes_plain_error_response [] none
    (fun _ w => Error (some { Error := "Fail" }) w) { rw := { calls := [] }, stdout := [] }
    { rw := { calls := [] }, stdout := [] } { statusCode := 500, message := "Fail" } (by decide)
    (by decide)
  have h2 := C7_failure_becomes_plain_error_response [] none
    (fun _ w => OK false 400 "Invalid input" w) { rw := { calls := [] }, stdout := [] }
    { rw := { calls := [] }, stdout := [] } { statusCode := 400, message := "Invalid input" }
    (by decide) (by decide)
  refine ⟨⟨h1.1, ?_, ?_⟩, ⟨h2.1, ?_, ?_⟩⟩
  · rw [h1.2.2.2]; rfl
  · rw [h1.2.2.1]; decide
  · rw [h2.2.2.2]; rfl
  · rw [h2.2.2.1]; decide

/-- C8: when the downstream handler panics with a value that is not an
`assertError`, the middleware panics again with that same value and leaves the
response writer and the log as the handler left them. -/
theorem C8_other_panic_passes_through (trace : List Char) (r : Option Request)
    (next : HandlerFunc) (w w1 : World) (p : Payload)
    (hp : ∀ e : assertError, p ≠ Payload.assertErr e)
    (h : next r w = Outcome.panicked w1 p) :
    Middleware trace r next w = Outcome.panicked w1 p ∧
    (Middleware trace r next w).payload = some p ∧
    (Middleware trace r next w).state.rw = w1.rw ∧
    (Middleware trace r next w).state.stdout = w1.stdout := by
  have hm : Middleware trace r next w = Outcome.panicked w1 p := by
    cases p with
    | assertErr e => exact absurd rfl (hp e)
    | other v => simp [Middleware, h, Middleware.deferred]
  rw [hm]
  exact ⟨rfl, rfl, rfl, rfl⟩

/-- Witness of C8: a handler that writes a status line and then panics with a
runtime error. -/
theorem C8_other_panic_passes_through_witness :
    Middleware [] none
        (fun _ w => Outcome.panicked { w with rw := w.rw.call (RwCall.WriteHeader 200) }
          (Payload.other "index out of range"))
        { rw := { calls := [] }, stdout := [] } =
      Outcome.panicked { rw := { calls := [RwCall.WriteHeader 200] }, stdout := [] }
        (Payload.other "index out of range") :=
  (C8_other_panic_passes_through [] none
    (fun _ w => Outcome.panicked { w with rw := w.rw.call (RwCall.WriteHeader 200) }
      (Payload.other "index out of range"))
    { rw := { calls := [] }, stdout := [] }
    { rw := { calls := [RwCall.WriteHeader 200] }, stdout := [] }
    (Payload.other "index out of range") (by intro e; simp) (by decide)).1

/-- C9: when the middleware intercepts an `assertError` `F`, it writes to the log
exactly when `F.statusCode` is 500. It then writes one entry: the tag "[web] ",
then "PANIC: ", `F.message`, a newline and the string `F.stack()` returned, closed
by the newline with which the logger ends an entry. For any other status code the
log stays as the handler left it. -/
theorem C9_log_entry_iff_status_500 (trace : List Char) (r : Option Request)
    (next : HandlerFunc) (w w1 : World) (F : assertError)
    (h : next r w = Outcome.panicked w1 (Payload.assertErr F)) :
    (Middleware trace r next w).state.stdout =
      (if F.statusCode = 500 then
        w1.stdout ++ ["[web] " ++ ("PANIC: " ++ F.message ++ "\n" ++ F.stack trace) ++ "\n"]
      else w1.stdout) ∧
    ((Middleware trace r next w).state.stdout ≠ w1.stdout ↔ F.statusCode = 500) ∧
    (Middleware trace r next w).state.stdout.length =
      w1.stdout.length + (if F.statusCode = 500 then 1 else 0) := by
  rw [Middleware_of_assertError trace r next w w1 F h]
  by_cases h500 : F.statusCode = 500
  · cases httpError w1.rw F.message F.statusCode <;> simp [Outcome.state, h500]
  · cases httpError w1.rw F.message F.statusCode <;> simp [Outcome.state, h500]

/-- Witness of C9, the case of `TestMiddleware`: `Error` of an error with text
"Fail" behind the middleware, while the trace is "main". -/
theorem C9_log_entry_iff_status_500_witness :
    (Middleware ['m', 'a', 'i', 'n'] none
        (fun _ w => Error (some { Error := "Fail" }) w)
        { rw := { calls := [] }, stdout := [] }).state.stdout =
      ["[web] " ++
        ("PANIC: " ++ "Fail" ++ "\n" ++
          assertError.stack { statusCode := 500, message := "Fail" }
            ['m', 'a', 'i', 'n']) ++ "\n"] := by
  have h := (C9_log_entry_iff_status_500
    ['m', 'a', 'i', 'n'] none
    (fun _ w => Error (some { Error := "Fail" }) w) { rw := { calls := [] }, stdout := [] }
    { rw := { calls := [] }, stdout := [] } { statusCode := 500, message := "Fail" }
    (by decide)).1
  simpa using h

/-! ## The assertion scope -/

theorem throw_of_hook_returns {σ : Type} (hook : σ → Outcome σ) (s s1 : σ)
    (err : Option assertError) (hret : hook s = Outcome.returned s1) :
    (assertEncapsulation.OnError New (some hook)).throw err s = panicWith err s1 := by
  simp [assertEncapsulation.throw, assertEncapsulation.OnError, hret]

/-- C10, as stated, fails for a hook that itself panics: the scope method then
panics with the value of the hook, not with the failure of the assertion. -/
theorem C10_counterexample_hook_panics :
    (assertEncapsulation.OnError New
        (some (fun s : Unit => Outcome.panicked s (Payload.other "hook failed")))).OK
        false 400 "" () =
      Outcome.panicked () (Payload.other "hook failed") ∧
    (assertEncapsulation.OnError New
        (some (fun s : Unit => Outcome.panicked s (Payload.other "hook failed")))).OK
        false 400 "" () ≠
      Outcome.panicked () (Payload.assertErr { statusCode := 400, message := "Bad Request" }) := by
  constructor <;>
    simp [assertEncapsulation.OK, assertEncapsulation.throw, assertEncapsulation.OnError,
      ok_false]

/-- C10 (amended): on a scope made by `New()` with a hook registered by `OnError`,
provided the hook returns normally, every failing assertion (`OK` with a false
condition, `Success` or `Error` with a non-nil error) runs the hook once, from the
state of the call, and then panics in the state the hook left, with the same
failure that the free function of the same name raises. -/
theorem C10_hook_runs_once_before_failure {σ : Type} (hook : σ → Outcome σ) (s s1 : σ)
    (statusCode : Int) (message : String) (err : error)
    (hret : hook s = Outcome.returned s1) :
    (assertEncapsulation.OnError New (some hook)).OK false statusCode message s =
      Outcome.panicked s1
        (Payload.assertErr
          { statusCode := statusCode,
            message := if message = "" then StatusText statusCode else message }) ∧
    (assertEncapsulation.OnError New (some hook)).Success (some err) statusCode message s =
      Outcome.panicked s1
        (Payload.assertErr
          { statusCode := statusCode,
            message := if message = "" then StatusText statusCode else message }) ∧
    (assertEncapsulation.OnError New (some hook)).Error (some err) s =
      Outcome.panicked s1
        (Payload.assertErr
          { statusCode := 500,
            message := if err.Error = "" then "Internal Server Error" else err.Error }) ∧
    ((assertEncapsulation.OnError New (some hook)).OK false statusCode message s).payload =
      (OK false statusCode message s).payload ∧
    ((assertEncapsulation.OnError New (some hook)).Success (some err) statusCode message
        s).payload =
      (Success (some err) statusCode message s).payload ∧
    ((assertEncapsulation.OnError New (some hook)).Error (some err) s).payload =
      (Error (some err) s).payload := by
  refine ⟨?_, ?_, ?_, ?_, ?_, ?_⟩
  · simp [assertEncapsulation.OK, ok_false, throw_of_hook_returns hook s s1 _ hret, panicWith]
  · simp [assertEncapsulation.Success, ok_false, throw_of_hook_returns hook s s1 _ hret,
      panicWith]
  · simp [assertEncapsulation.Error, ok_false, throw_of_hook_returns hook s s1 _ hret,
      panicWith, StatusInternalServerError, StatusText_500]
  · simp [assertEncapsulation.OK, OK, ok_false, throw_of_hook_returns hook s s1 _ hret,
      panicWith, Outcome.payload]
  · simp [assertEncapsulation.Success, Success, ok_false,
      throw_of_hook_returns hook s s1 _ hret, panicWith, Outcome.payload]
  · simp [assertEncapsulation.Error, Error, ok_false, throw_of_hook_returns hook s s1 _ hret,
      panicWith, Outcome.payload]

/-- Witness of C10 (amended), the case of `TestOnError`: the state is the flag
`called`, the hook sets it, and `OK(false, 400, "")` on the scope panics with the
flag set and the failure 400 "Bad Request". -/
theorem C10_hook_runs_once_before_failure_witness :
    (assertEncapsulation.OnError New (some (fun _ : Bool => Outcome.returned true))).OK
        false StatusBadRequest "" false =
      Outcome.panicked true
        (Payload.assertErr { statusCode := 400, message := "Bad Request" }) := by
  have h := (C10_hook_runs_once_before_failure (fun _ : Bool => Outcome.returned true)
    false true StatusBadRequest "" { Error := "Fail" } rfl).1
  simpa [StatusBadRequest, StatusText_400] using h

theorem throw_of_no_hook {σ : Type} (err : Option assertError) (s : σ) :
    (New : assertEncapsulation σ).throw err s = panicWith err s := by
  simp [assertEncapsulation.throw, New]

theorem throw_of_hook_panics {σ : Type} (a : assertEncapsulation σ) (hook : σ → Outcome σ)
    (s s1 : σ) (P : Payload) (err : Option assertError) (ha : a.onError = some hook)
    (hp : hook s = Outcome.panicked s1 P) :
    a.throw err s = Outcome.panicked s1 P := by
  simp [assertEncapsulation.throw, ha, hp]

theorem throw_payload_of_returns {σ : Type} (a : assertEncapsulation σ) (s : σ)
    (err : Option assertError)
    (hret : ∀ fn, a.onError = some fn → ∃ s1, fn s = Outcome.returned s1) :
    (a.throw err s).payload = (panicWith err s).payload ∧
    (a.throw err s).aborts = true := by
  rcases hfn : a.onError with _ | fn
  · cases err <;> simp [assertEncapsulation.throw, hfn, panicWith, Outcome.payload,
      Outcome.aborts]
  · obtain ⟨s1, hs1⟩ := hret fn hfn
    cases err <;> simp [assertEncapsulation.throw, hfn, hs1, panicWith, Outcome.payload,
      Outcome.aborts]

/-- C11: on any scope whose hook, if one is registered, returns normally, each of
`OK`, `Success` and `Error` panics exactly when the free function of the same name
panics on the same arguments, and with the same panic value; on the scope that
`New()` returns, with no hook, the method and the free function give the same
outcome altogether. -/
theorem C11_scope_methods_mirror_free_functions {σ : Type} (a : assertEncapsulation σ)
    (condition : Bool) (statusCode : Int) (message : String) (err : Option error) (s : σ)
    (hret : ∀ fn, a.onError = some fn → ∃ s1, fn s = Outcome.returned s1) :
    ((a.OK condition statusCode message s).aborts = (OK condition statusCode message s).aborts ∧
      (a.OK condition statusCode message s).payload =
        (OK condition statusCode message s).payload) ∧
    ((a.Success err statusCode message s).aborts = (Success err statusCode message s).aborts ∧
      (a.Success err statusCode message s).payload =
        (Success err statusCode message s).payload) ∧
    ((a.Error err s).aborts = (Error err s).aborts ∧
      (a.Error err s).payload = (Error err s).payload) ∧
    (New : assertEncapsulation σ).OK condition statusCode message s =
      OK condition statusCode message s ∧
    (New : assertEncapsulation σ).Success err statusCode message s =
      Success err statusCode message s ∧
    (New : assertEncapsulation σ).Error err s = Error err s := by
  have hpay := fun e => (throw_payload_of_returns a s e hret).1
  have hab := fun e => (throw_payload_of_returns a s e hret).2
  refine ⟨?_, ?_, ?_, ?_, ?_, ?_⟩
  · cases condition
    · simp only [assertEncapsulation.OK, OK, ok_false, hpay, hab]
      simp [panicWith, Outcome.aborts]
    · simp [assertEncapsulation.OK, OK, ok_true]
  · cases err with
    | none => simp [assertEncapsulation.Success, Success, ok_true]
    | some e =>
      have hb : ((some e : Option error) == none) = false := by simp
      simp only [assertEncapsulation.Success, Success, hb, ok_false, hpay, hab]
      simp [panicWith, Outcome.aborts]
  · cases err
    · simp [assertEncapsulation.Error, Error]
    · simp only [assertEncapsulation.Error, Error, ok_false, hpay, hab]
      simp [panicWith, Outcome.aborts]
  · cases condition
    · simp [assertEncapsulation.OK, OK, ok_false, throw_of_no_hook]
    · simp [assertEncapsulation.OK, OK, ok_true]
  · cases err
    · simp [assertEncapsulation.Success, Success, ok_true]
    · simp [assertEncapsulation.Success, Success, ok_false, throw_of_no_hook]
  · cases err
    · simp [assertEncapsulation.Error, Error]
    · simp [assertEncapsulation.Error, Error, throw_of_no_hook]

/-- Witness of C11: the scope of `TestOnError`, whose hook sets the flag `called`,
and a failing `OK(false, 400, "")`. -/
theorem C11_scope_methods_mirror_free_functions_witness :
    ((assertEncapsulation.OnError New (some (fun _ : Bool => Outcome.returned true))).OK
        false 400 "" false).payload =
      (OK false 400 "" false).payload :=
  (C11_scope_methods_mirror_free_functions
    (assertEncapsulation.OnError New (some (fun _ : Bool => Outcome.returned true)))
    false 400 "" (some { Error := "Fail" }) false
    (by
      intro fn hfn
      simp only [assertEncapsulation.OnError, Option.some.injEq] at hfn
      exact ⟨true, by rw [← hfn]⟩)).1.2

/-- C12: `OnError(fn)` returns normally, leaves the caller's state untouched (so it
runs no hook), and replaces the registered hook by `fn`. After `OnError(h1)` and
then `OnError(h2)` the scope is the one that only ever saw `OnError(h2)`: a failing
assertion runs `h2` once from the state of the call and then panics, and `h1` plays
no part. With two counting hooks the count of `h1` stays 0 and that of `h2`
becomes 1. -/
theorem C12_OnError_last_registration_wins {σ : Type} (st : ScopeState σ)
    (h1 : Option (σ → Outcome σ)) (h2 : σ → Outcome σ) (statusCode : Int) (message : String)
    (s : σ) :
    ScopeState.OnError h1 st = Outcome.returned { a := { onError := h1 }, world := st.world } ∧
    (st.a.OnError h1).OnError (some h2) = st.a.OnError (some h2) ∧
    ((st.a.OnError h1).OnError (some h2)).OK false statusCode message s =
      (match h2 s with
        | Outcome.returned s1 =>
          Outcome.panicked s1
            (Payload.assertErr
              { statusCode := statusCode,
                message := if message = "" then StatusText statusCode else message })
        | Outcome.panicked s1 p => Outcome.panicked s1 p) ∧
    ((assertEncapsulation.OnError New
          (some (fun c : Nat × Nat => Outcome.returned (c.1 + 1, c.2)))).OnError
        (some (fun c : Nat × Nat => Outcome.returned (c.1, c.2 + 1)))).OK false 400 "" (0, 0) =
      Outcome.panicked (0, 1)
        (Payload.assertErr { statusCode := 400, message := "Bad Request" }) := by
  refine ⟨rfl, rfl, ?_, ?_⟩
  · simp only [assertEncapsulation.OK, ok_false, assertEncapsulation.throw,
      assertEncapsulation.OnError]
    cases h2 s <;> simp [panicWith]
  · simp [assertEncapsulation.OK, ok_false, assertEncapsulation.throw,
      assertEncapsulation.OnError, panicWith, StatusText_400]

/-- C13: when the registered hook panics with the value `P`, a failing `OK`,
`Success` or `Error` on the scope panics with `P`, in the state the hook left; the
failure of the assertion is not raised. -/
theorem C13_hook_panic_takes_precedence {σ : Type} (a : assertEncapsulation σ)
    (hook : σ → Outcome σ) (s s1 : σ) (P : Payload) (statusCode : Int) (message : String)
    (err : error) (ha : a.onError = some hook) (hp : hook s = Outcome.panicked s1 P) :
    a.OK false statusCode message s = Outcome.panicked s1 P ∧
    a.Success (some err) statusCode message s = Outcome.panicked s1 P ∧
    a.Error (some err) s = Outcome.panicked s1 P := by
  have ht := fun e => throw_of_hook_panics a hook s s1 P e ha hp
  refine ⟨?_, ?_, ?_⟩
  · simp [assertEncapsulation.OK, ok_false, ht]
  · simp [assertEncapsulation.Success, ok_false, ht]
  · simp [assertEncapsulation.Error, ht]

/-- Witness of C13: a hook that panics with a value of its own, under a failing
`OK(false, 400, "Invalid input")`. -/
theorem C13_hook_panic_takes_precedence_witness :
    (assertEncapsulation.OnError New
        (some (fun n : Nat => Outcome.panicked (n + 1) (Payload.other "rollback failed")))).OK
        false 400 "Invalid input" 0 =
      Outcome.panicked 1 (Payload.other "rollback failed") :=
  (C13_hook_panic_takes_precedence
    (assertEncapsulation.OnError New
      (some (fun n : Nat => Outcome.panicked (n + 1) (Payload.other "rollback failed"))))
    (fun n : Nat => Outcome.panicked (n + 1) (Payload.other "rollback failed"))
    0 1 (Payload.other "rollback failed") 400 "Invalid input" { Error := "Fail" } rfl rfl).1

/-- C14: when the downstream handler returns normally, the middleware's outcome is
that of the single call `next(rw, r)`: it returns, and the response writer and the
log are exactly as the handler left them. -/
theorem C14_normal_return_is_untouched (trace : List Char) (r : Option Request)
    (next : HandlerFunc) (w w1 : World) (h : next r w = Outcome.returned w1) :
    Middleware trace r next w = next r w ∧
    Middleware trace r next w = Outcome.returned w1 ∧
    (Middleware trace r next w).state.rw.calls = w1.rw.calls ∧
    (Middleware trace r next w).state.stdout = w1.stdout := by
  have hm : Middleware trace r next w = Outcome.returned w1 := by
    simp [Middleware, h, Middleware.deferred]
  rw [hm, h]
  exact ⟨rfl, rfl, rfl, rfl⟩

/-- Witness of C14: a handler that answers 200 with the body "ok". -/
theorem C14_normal_return_is_untouched_witness :
    Middleware [] (some { method := "GET", url := "/app" })
        (fun _ w => Outcome.returned
          { w with rw := (w.rw.call (RwCall.WriteHeader 200)).call (RwCall.Write "ok") })
        { rw := { calls := [] }, stdout := [] } =
      Outcome.returned
        { rw := { calls := [RwCall.WriteHeader 200, RwCall.Write "ok"] }, stdout := [] } :=
  (C14_normal_return_is_untouched [] (some { method := "GET", url := "/app" })
    (fun _ w => Outcome.returned
      { w with rw := (w.rw.call (RwCall.WriteHeader 200)).call (RwCall.Write "ok") })
    { rw := { calls := [] }, stdout := [] }
    { rw := { calls := [RwCall.WriteHeader 200, RwCall.Write "ok"] }, stdout := [] }
    (by decide)).2.1

/-! ## One response per intercepted failure -/

theorem writeHeaderCalls_append (xs ys : List RwCall) :
    writeHeaderCalls (xs ++ ys) = writeHeaderCalls xs + writeHeaderCalls ys := by
  induction xs with
  | nil => simp [writeHeaderCalls]
  | cons c cs ih =>
    cases c <;> simp [writeHeaderCalls, ih]
    omega

theorem writeCalls_append (xs ys : List RwCall) :
    writeCalls (xs ++ ys) = writeCalls xs + writeCalls ys := by
  induction xs with
  | nil => simp [writeCalls]
  | cons c cs ih =>
    cases c <;> simp [writeCalls, ih]
    omega

theorem nothing_written_of_not_wroteHeader (xs : List RwCall) (h : wroteHeader xs = false) :
    writeHeaderCalls xs = 0 ∧ writeCalls xs = 0 ∧ recorderBody xs = "" := by
  induction xs with
  | nil => simp [writeHeaderCalls, writeCalls, recorderBody]
  | cons c cs ih =>
    cases c <;> simp [wroteHeader] at h <;>
      simpa [writeHeaderCalls, writeCalls, recorderBody] using ih h

/-- C15, as stated, fails in two ways. A handler that has already written a status
line and a body before it panics makes the writer receive a second status line and
a second body from the middleware; a recording writer ends with the status of the
handler and both bodies. And behind the middleware `OK(false, 0, "")` on a fresh
recorder makes `WriteHeader(0)` panic inside `http.Error`: the middleware panics
with that value, and the writer has received neither a status line nor a body. -/
theorem C15_counterexample_two_responses_or_none :
    (writeHeaderCalls (Middleware [] none
        (fun _ w => OK false 400 "Invalid input"
          { w with rw := (w.rw.call (RwCall.WriteHeader 200)).call (RwCall.Write "partial") })
        { rw := { calls := [] }, stdout := [] }).state.rw.calls = 2 ∧
      recorderCode (Middleware [] none
        (fun _ w => OK false 400 "Invalid input"
          { w with rw := (w.rw.call (RwCall.WriteHeader 200)).call (RwCall.Write "partial") })
        { rw := { calls := [] }, stdout := [] }).state.rw.calls = 200 ∧
      recorderBody (Middleware [] none
        (fun _ w => OK false 400 "Invalid input"
          { w with rw := (w.rw.call (RwCall.WriteHeader 200)).call (RwCall.Write "partial") })
        { rw := { calls := [] }, stdout := [] }).state.rw.calls = "partialInvalid input\n") ∧
    ((Middleware [] none (fun _ w => OK false 0 "" w)
        { rw := { calls := [] }, stdout := [] }).payload =
        some (Payload.other "invalid WriteHeader code 0") ∧
      writeHeaderCalls (Middleware [] none (fun _ w => OK false 0 "" w)
        { rw := { calls := [] }, stdout := [] }).state.rw.calls = 0 ∧
      writeCalls (Middleware [] none (fun _ w => OK false 0 "" w)
        { rw := { calls := [] }, stdout := [] }).state.rw.calls = 0) := by
  have hm := Middleware_accepted [] none
    (fun _ w => OK false 400 "Invalid input"
      { w with rw := (w.rw.call (RwCall.WriteHeader 200)).call (RwCall.Write "partial") })
    { rw := { calls := [] }, stdout := [] }
    { rw := { calls := [RwCall.WriteHeader 200, RwCall.Write "partial"] }, stdout := [] }
    { statusCode := 400, message := "Invalid input" } (by decide) (by decide)
  have h0 := Middleware_rejected [] none (fun _ w => OK false 0 "" w)
    { rw := { calls := [] }, stdout := [] } { rw := { calls := [] }, stdout := [] }
    { statusCode := 0, message := "" } (by decide) rfl (by decide)
  rw [hm, h0]
  refine ⟨⟨?_, ?_, ?_⟩, ⟨?_, ?_, ?_⟩⟩
  · simp [Outcome.state, writeHeaderCalls]
  · simp [Outcome.state, recorderCode]
  · simp only [Outcome.state]
    decide
  · simp only [Outcome.payload]
    decide
  · simp [Outcome.state, writeHeaderCalls]
  · simp [Outcome.state, writeCalls]

/-- C15 (amended): a failure `F` that the downstream handler panics with never
leaves the middleware as a panic value. When the status code of `F` lies between
100 and 999 the middleware returns normally and itself makes exactly one
`WriteHeader` call and one `Write` call on the response writer. When moreover the
handler had written neither a status line nor a body, the writer has received
exactly one response: the status `F.statusCode` and the body `F.message` with a
newline. -/
theorem C15_boundary_answers_once (trace : List Char) (r : Option Request)
    (next : HandlerFunc) (w w1 : World) (F : assertError)
    (h : next r w = Outcome.panicked w1 (Payload.assertErr F)) :
    (∀ e : assertError, (Middleware trace r next w).payload ≠ some (Payload.assertErr e)) ∧
    (100 ≤ F.statusCode ∧ F.statusCode ≤ 999 →
      (Middleware trace r next w).aborts = false ∧
      writeHeaderCalls (Middleware trace r next w).state.rw.calls =
        writeHeaderCalls w1.rw.calls + 1 ∧
      writeCalls (Middleware trace r next w).state.rw.calls = writeCalls w1.rw.calls + 1) ∧
    (100 ≤ F.statusCode ∧ F.statusCode ≤ 999 → wroteHeader w1.rw.calls = false →
      writeHeaderCalls (Middleware trace r next w).state.rw.calls = 1 ∧
      writeCalls (Middleware trace r next w).state.rw.calls = 1 ∧
      recorderCode (Middleware trace r next w).state.rw.calls = F.statusCode ∧
      recorderBody (Middleware trace r next w).state.rw.calls = F.message ++ "\n") := by
  refine ⟨?_, ?_, ?_⟩
  · intro e
    rw [Middleware_of_assertError trace r next w w1 F h]
    have hp := httpError_payload w1.rw F.message F.statusCode e
    cases hres : httpError w1.rw F.message F.statusCode with
    | returned rw1 => simp [Outcome.payload]
    | panicked rw1 p =>
      rw [hres] at hp
      simpa [Outcome.payload] using hp
  · intro hcode
    rw [Middleware_accepted trace r next w w1 F h hcode]
    simp only [Outcome.state, writeHeaderCalls_append, writeCalls_append]
    refine ⟨rfl, ?_, ?_⟩
    · simp [writeHeaderCalls]
    · simp [writeCalls]
  · intro hcode hw
    rw [Middleware_accepted trace r next w w1 F h hcode]
    obtain ⟨h1, h2, h3⟩ := nothing_written_of_not_wroteHeader _ hw
    simp only [Outcome.state, writeHeaderCalls_append, writeCalls_append, recorderCode_append,
      recorderBody_append]
    simp [h1, h2, h3, hw, writeHeaderCalls, writeCalls, recorderCode, recorderBody]

/-- Witness of C15 (amended), the "default text" scenario on a fresh recorder:
`OK(false, 404, "")` behind the middleware gives the one response 404 with the
body "Not Found" and a newline. -/
theorem C15_boundary_answers_once_witness :
    (Middleware [] none (fun _ w => OK false 404 "" w)
        { rw := { calls := [] }, stdout := [] }).aborts = false ∧
    writeHeaderCalls (Middleware [] none (fun _ w => OK false 404 "" w)
        { rw := { calls := [] }, stdout := [] }).state.rw.calls = 1 ∧
    recorderCode (Middleware [] none (fun _ w => OK false 404 "" w)
        { rw := { calls := [] }, stdout := [] }).state.rw.calls = 404 ∧
    recorderBody (Middleware [] none (fun _ w => OK false 404 "" w)
        { rw := { calls := [] }, stdout := [] }).state.rw.calls = "Not Found\n" := by
  have h := C15_boundary_answers_once [] none (fun _ w => OK false 404 "" w)
    { rw := { calls := [] }, stdout := [] } { rw := { calls := [] }, stdout := [] }
    { statusCode := 404, message := "Not Found" }
    (by simp [OK, ok_false, panicWith, StatusText_404])
  have h3 := h.2.1 (by decide)
  have h4 := h.2.2 (by decide) rfl
  exact ⟨h3.1, h4.1, h4.2.2.1, by rw [h4.2.2.2]; decide⟩

/-! ## `Throw` and the determinism of `ok` -/

/-- C16: `Throw(statusCode, message)` panics for every status code and message, in
every state, with the same outcome as `OK(false, statusCode, message)`; and
`Throw(400, "Invalid input")` panics with an error whose text is "Invalid input". -/
theorem C16_Throw_is_OK_false {σ : Type} (statusCode : Int) (message : String) (s : σ) :
    (Throw statusCode message s).aborts = true ∧
    Throw statusCode message s = OK false statusCode message s ∧
    ∃ e : assertError,
      Throw StatusBadRequest "Invalid input" s = Outcome.panicked s (Payload.assertErr e) ∧
      e.statusCode = 400 ∧ e.Error = "Invalid input" := by
  refine ⟨?_, ?_, ⟨{ statusCode := 400, message := "Invalid input" }, ?_, rfl, rfl⟩⟩
  · simp [Throw, ok_false, panicWith, Outcome.aborts]
  · simp [Throw, OK, ok_false]
  · simp [Throw, ok_false, panicWith, StatusBadRequest]

/-- C17: the result of `ok` is a function of its three arguments alone: it is `nil`
when `condition` is true, and otherwise the failure with the given status code and
the resolved message. So two calls with the same arguments are both `nil` or both
failures with equal status code and message. -/
theorem C17_ok_is_deterministic (condition : Bool) (statusCode : Int) (message : String) :
    ok condition statusCode message =
      (if condition then none
       else some { statusCode := statusCode,
                   message := if message = "" then StatusText statusCode else message }) ∧
    ((ok condition statusCode message = none ∧ ok condition statusCode message = none) ∨
      ∃ e1 e2 : assertError,
        ok condition statusCode message = some e1 ∧
        ok condition statusCode message = some e2 ∧
        (e1.statusCode, e1.message) = (e2.statusCode, e2.message)) := by
  cases condition
  · refine ⟨by simp [ok_false], Or.inr ⟨_, _, ok_false _ _, ok_false _ _, rfl⟩⟩
  · exact ⟨by simp [ok_true], Or.inl ⟨ok_true _ _, ok_true _ _⟩⟩

/-! ## The capture loop of `stack` -/

theorem make32_pos : 0 < (make 32).length := by
  simp [make]

theorem stackLoop_doubling (trace : List Char) :
    ∀ (k : Nat) (buf : List Char) (hb : 0 < buf.length),
      buf = make buf.length → trace.length + 1 - buf.length ≤ k →
      ∃ j, trace.length < buf.length * 2 ^ j ∧
        (j = 0 ∨ buf.length * 2 ^ (j - 1) ≤ trace.length) ∧
        stackLoop trace buf hb = trace ++ make (buf.length * 2 ^ j - trace.length) := by
  intro k
  induction k with
  | zero =>
    intro buf hb hbuf hk
    have hlt : trace.length < buf.length := by omega
    refine ⟨0, by simpa using hlt, Or.inl rfl, ?_⟩
    rw [stackLoop]
    have hmin : min trace.length buf.length = trace.length := by omega
    simp only [runtimeStack, hmin, hlt, if_true, List.take_length, pow_zero, Nat.mul_one]
    rw [hbuf]
    simp [make, List.drop_replicate]
  | succ k ih =>
    intro buf hb hbuf hk
    by_cases hlt : trace.length < buf.length
    · refine ⟨0, by simpa using hlt, Or.inl rfl, ?_⟩
      rw [stackLoop]
      have hmin : min trace.length buf.length = trace.length := by omega
      simp only [runtimeStack, hmin, hlt, if_true, List.take_length, pow_zero, Nat.mul_one]
      rw [hbuf]
      simp [make, List.drop_replicate]
    · have hpos : 0 < (make (buf.length * 2)).length := by
        simp only [make_length]
        omega
      obtain ⟨j, hj1, hj2, hj3⟩ := ih (make (buf.length * 2)) hpos (by simp [make])
        (by simp only [make_length]; omega)
      simp only [make_length] at hj1 hj2 hj3
      have hpow : buf.length * 2 ^ (j + 1) = buf.length * 2 * 2 ^ j := by
        rw [pow_succ]
        ring
      refine ⟨j + 1, by rw [hpow]; exact hj1, Or.inr ?_, ?_⟩
      · rcases hj2 with hj0 | hjle
        · subst hj0
          simp only [Nat.add_sub_cancel, pow_zero, Nat.mul_one]
          omega
        · obtain ⟨i, rfl⟩ : ∃ i, j = i + 1 := ⟨j - 1, by
            rcases j with _ | j
            · simp only [Nat.zero_sub, pow_zero, Nat.mul_one] at hjle
              omega
            · simp⟩
          simp only [Nat.add_sub_cancel] at hjle ⊢
          have : buf.length * 2 ^ (i + 1) = buf.length * 2 * 2 ^ i := by
            rw [pow_succ]
            ring
          omega
      · rw [stackLoop]
        have hmin : min trace.length buf.length = buf.length := by omega
        simp only [runtimeStack, hmin, Nat.lt_irrefl, if_false]
        rw [hpow]
        exact hj3

/-- C18: for every trace the loop of `stack()` ends (it is a total function), and
it ends with a buffer of 32 bytes doubled some number of times, strictly longer
than the trace and the first such size the doubling reaches; the buffer, and the
string `stack()` returns, start with the complete trace. -/
theorem C18_stack_capture_is_complete (err : assertError) (trace : List Char) :
    ∃ j : Nat,
      (stackLoop trace (make 32) make32_pos).length = 32 * 2 ^ j ∧
      trace.length < 32 * 2 ^ j ∧
      (j = 0 ∨ 32 * 2 ^ (j - 1) ≤ trace.length) ∧
      stackLoop trace (make 32) make32_pos = trace ++ make (32 * 2 ^ j - trace.length) ∧
      (err.stack trace).data = trace ++ make (32 * 2 ^ j - trace.length) := by
  obtain ⟨j, hj1, hj2, hj3⟩ := stackLoop_doubling trace (trace.length + 1) (make 32) make32_pos
    (by simp [make]) (by omega)
  simp only [make_length] at hj1 hj2 hj3
  refine ⟨j, ?_, hj1, hj2, hj3, ?_⟩
  · rw [hj3]
    simp only [List.length_append, make_length]
    omega
  · simp only [assertError.stack, Join_Split]
    exact hj3

/-- C19 fails on the code: `stack()` converts the whole buffer, not its first `n`
bytes, so the string it returns is always longer than the trace and never equal to
it: the trace is followed by the zero bytes left in the buffer. For the trace
"main" it returns "main" followed by 28 zero bytes, a string of length 32. -/
theorem C19_stack_keeps_buffer_padding (err : assertError) (trace : List Char) :
    trace.length < (err.stack trace).length ∧
    err.stack trace ≠ String.mk trace ∧
    assertError.stack { statusCode := 500, message := "Fail" } ['m', 'a', 'i', 'n'] =
      String.mk (['m', 'a', 'i', 'n'] ++ List.replicate 28 (Char.ofNat 0)) ∧
    (assertError.stack { statusCode := 500, message := "Fail" } ['m', 'a', 'i', 'n']).length =
      32 := by
  obtain ⟨n, hn, h⟩ := stack_eq err trace
  have hmain : assertError.stack { statusCode := 500, message := "Fail" } ['m', 'a', 'i', 'n'] =
      String.mk (['m', 'a', 'i', 'n'] ++ List.replicate 28 (Char.ofNat 0)) := by
    simp only [assertError.stack, Join_Split]
    rw [stackLoop]
    simp [runtimeStack, make, NUL]
  refine ⟨?_, ?_, hmain, ?_⟩
  · rw [h]
    simp only [String.length, List.length_append, make_length]
    omega
  · rw [h]
    intro heq
    have hlen := congrArg String.length heq
    simp only [String.length, List.length_append, make_length] at hlen
    omega
  · rw [hmain]
    rfl

/-- C20: a passing assertion on a scope does nothing: `OK` with a true condition,
`Success` with a nil error and `Error` with a nil error return normally and leave
both the caller's state and the struct of the scope, hence its registered hook, as
they were, whether a hook is registered or not. With a hook that counts its calls,
or one that always panics, the call still returns and the count stays 0. -/
theorem C20_passing_assertion_has_no_effect {σ : Type} (st : ScopeState σ) (statusCode : Int)
    (message : String) :
    ScopeState.OK true statusCode message st = Outcome.returned st ∧
    ScopeState.Success none statusCode message st = Outcome.returned st ∧
    ScopeState.Error none st = Outcome.returned st ∧
    (ScopeState.OK true 400 "Invalid input"
        { a := assertEncapsulation.OnError New (some (fun n : Nat => Outcome.returned (n + 1))),
          world := 0 }).state.world = 0 ∧
    (ScopeState.Error none
        { a := assertEncapsulation.OnError New
            (some (fun n : Nat => Outcome.panicked (n + 1) (Payload.other "hook failed"))),
          world := 0 }).payload = none := by
  refine ⟨?_, ?_, ?_, ?_, ?_⟩
  · simp [ScopeState.OK, ScopeState.run, assertEncapsulation.OK, ok_true]
  · simp [ScopeState.Success, ScopeState.run, assertEncapsulation.Success, ok_true]
  · simp [ScopeState.Error, ScopeState.run, assertEncapsulation.Error]
  · simp [ScopeState.OK, ScopeState.run, assertEncapsulation.OK, ok_true, Outcome.state]
  · simp [ScopeState.Error, ScopeState.run, assertEncapsulation.Error, Outcome.payload]

end Assert
